import Mathlib

/-!
Shallow embedding of the NewsLetter-AI server core
(src/server/routes/newsletters.js, src/server/models/newsletter.model.js).

Mongo documents become Lean structures; ObjectIds become `Nat`; the
persistent Newsletter collection is a `List Newsletter`; external
collaborators (Gemini generation service, puppeteer rendering engine,
SendGrid delivery provider, notification store) are modelled as explicit
environment fields whose values stand for the outcome of the corresponding
`await` call (`none` / `false` = the call throws, which the route's
`try/catch` turns into a 500 response).
-/

namespace NewsLetterAI

/-- An article document as referenced by the request body of
POST /generate-and-save.  `mongoId` models the Mongo `_id` used in
`articles.map(a => a._id)`; the remaining fields feed the prompt and are
`Option` because a JS object property may be absent (`undefined`), in which
case `JSON.stringify` omits it. -/
structure Article where
  mongoId : Nat
  title : Option String
  summary : Option String
  sourceName : Option String
  category : Option String
  originalUrl : Option String
  imageUrl : Option String
deriving DecidableEq, Repr

/-- The Newsletter document (src/server/models/newsletter.model.js).
`pdfContent` is `some (data, contentType)` when both sub-fields are set
(the generation pipeline always sets both together); `recipients` is the
stored array, mutated with Mongoose `addToSet` semantics. -/
structure Newsletter where
  mongoId : Nat
  title : String
  category : String
  status : String
  articles : List Nat
  recipients : List Nat
  pdfContent : Option (List Nat × String)
  htmlContent : Option String
deriving DecidableEq, Repr

/-- The status enumeration of newsletterSchema (model lines 7-11). -/
def statusEnum : List String := ["Not Sent", "pending", "approved", "sent", "declined"]

/-- The schema default for `status` (model line 10), the state machine's
initial value (called `not_sent` at the specification level). -/
def statusDefault : String := "Not Sent"

/-- A Notification document (user, newsletter, message, optional actionUrl). -/
structure Notif where
  user : Nat
  newsletter : Nat
  message : String
  actionUrl : Option String
deriving DecidableEq, Repr

/-- A Category document as consumed by the generation route:
`Category.findOne({ name: category })` yields `flyerImageUrl`. -/
structure CategoryDoc where
  name : String
  flyerImageUrl : Option String
deriving DecidableEq, Repr

/-- `Newsletter.findById(id)` over the embedded collection. -/
def findById (store : List Newsletter) (id : Nat) : Option Newsletter :=
  store.find? (fun n => n.mongoId == id)

/-- Mongoose `doc.save()` after mutating the document found by `id`:
the stored copy with that id is replaced by the mutated document. -/
def updateById (store : List Newsletter) (id : Nat) (nl : Newsletter) : List Newsletter :=
  store.map (fun n => if n.mongoId == id then nl else n)

/-- Mongoose array `addToSet(...ids)`: appends each id not already present,
preserving order and never removing anything. -/
def addToSet (recips : List Nat) (ids : List Nat) : List Nat :=
  ids.foldl (fun acc u => if u ∈ acc then acc else acc ++ [u]) recips

theorem mem_addToSet_foldl (ids : List Nat) (acc : List Nat) (x : Nat) :
    x ∈ addToSet acc ids ↔ x ∈ acc ∨ x ∈ ids := by
  induction ids generalizing acc with
  | nil => simp [addToSet]
  | cons u rest ih =>
    unfold addToSet at ih ⊢
    simp only [List.foldl_cons]
    by_cases hu : u ∈ acc
    · rw [if_pos hu, ih]
      constructor
      · rintro (hx | hx)
        · exact Or.inl hx
        · exact Or.inr (List.mem_cons_of_mem _ hx)
      · rintro (hx | hx)
        · exact Or.inl hx
        · rcases List.mem_cons.mp hx with rfl | hx
          · exact Or.inl hu
          · exact Or.inr hx
    · rw [if_neg hu, ih]
      simp only [List.mem_append, List.mem_singleton, List.mem_cons]
      tauto

theorem toFinset_addToSet (recips ids : List Nat) :
    (addToSet recips ids).toFinset = recips.toFinset ∪ ids.toFinset := by
  ext x
  simp only [List.mem_toFinset, Finset.mem_union]
  exact mem_addToSet_foldl ids recips x

theorem addToSet_superset (recips ids : List Nat) :
    ∀ x ∈ recips, x ∈ addToSet recips ids := by
  intro x hx
  exact (mem_addToSet_foldl ids recips x).mpr (Or.inl hx)

/-- Looking up by the same id after `updateById` returns the replacement,
provided the replacement keeps the document's id (record updates in the
routes never change `_id`). -/
theorem findById_updateById (store : List Newsletter) (id : Nat)
    (nl nl' : Newsletter) (hfound : findById store id = some nl)
    (hid : nl'.mongoId = nl.mongoId) :
    findById (updateById store id nl') id = some nl' := by
  induction store with
  | nil => simp [findById] at hfound
  | cons a t ih =>
    unfold findById at hfound
    unfold findById updateById
    simp only [List.map_cons]
    cases ha : (a.mongoId == id) with
    | true =>
      simp only [List.find?_cons, ha] at hfound
      obtain rfl : a = nl := by injection hfound
      have hnl' : (nl'.mongoId == id) = true := by rw [hid]; exact ha
      simp [List.find?_cons, ha, hnl']
    | false =>
      simp only [List.find?_cons, ha] at hfound
      have := ih hfound
      unfold findById updateById at this
      simpa [List.find?_cons, ha] using this

/-- The html body of the SendGrid message built in POST /:id/send
(lines 226-233).  A JS template literal interpolating an `undefined`
`htmlContent` prints the text `undefined`. -/
def sendEmailHtml (nl : Newsletter) : String :=
  "\n                        <p>Hi there,</p>\n                        <p>Here is your latest newsletter, <strong>"
    ++ nl.title
    ++ "</strong>! We\x27ve gathered some of the most interesting stories and updates for you. We hope you enjoy it!</p>\n                        "
    ++ nl.htmlContent.getD ("undefined")
    ++ "\n                        <p>Thanks for being a subscriber!</p>\n                        <p>Best,</p>\n                        <p>The NewsLetterAI Team</p>\n                    "

/-- Environment of one POST /:id/send request: the configuration flag and
the outcomes of each external call.  `resolveEmails` models
`User.find({_id:{$in:userIds}}).select(email)`; `deliver to html` models
`sgMail.send(msg)` (`false` = the call throws); `saveOk` models
`newsletter.save()`; `notifSucceeded` lists the user ids whose notification
insert succeeds inside `Notification.insertMany(..., {ordered:false})`
(an unordered bulk write keeps its successful inserts even when it
throws for the failed ones). -/
structure SendEnv where
  sendgridConfigured : Bool
  resolveEmails : List Nat → List String
  deliver : List String → String → Bool
  saveOk : Bool
  notifSucceeded : List Nat

/-- Response of POST /:id/send: 400 no recipients, 404 unknown newsletter,
500 from the outer catch, or 200 with the success message. -/
inductive SendResp
  | badRequest
  | notFound
  | serverError
  | ok (message : String)
deriving DecidableEq, Repr

/-- Result of one send request: the HTTP response plus the collections
after the request. -/
structure SendResult where
  resp : SendResp
  store : List Newsletter
  notifs : List Notif
deriving Repr

/-- The notification written for one recipient of a send (lines 243-247). -/
def sendNotifFor (nl : Newsletter) (u : Nat) : Notif :=
  { user := u, newsletter := nl.mongoId,
    message := "You received the \"" ++ nl.title ++ "\" newsletter.",
    actionUrl := none }

/-- POST /:id/send (lines 209-259) transcribed.  Steps: reject an empty
`userIds`; 404 on an unknown id; when SendGrid is configured and at least
one recipient resolves, dispatch one message to all addresses — a throw
there reaches the outer catch before any mutation, yielding 500 with
nothing changed; otherwise set `status = sent`, merge `userIds` into
`recipients` with `addToSet`, and `save()` (a save throw also yields 500
with the stored collection unchanged); finally insert the per-recipient
notifications in an unordered batch whose failures are caught and logged
(inner try/catch, lines 242-253), and answer 200. -/
def sendNewsletter (env : SendEnv) (store : List Newsletter) (notifs : List Notif)
    (id : Nat) (userIds : List Nat) : SendResult :=
  if userIds.isEmpty then ⟨.badRequest, store, notifs⟩
  else
    match findById store id with
    | none => ⟨.notFound, store, notifs⟩
    | some newsletter =>
      let recipients := env.resolveEmails userIds
      if env.sendgridConfigured && !recipients.isEmpty
          && !env.deliver recipients (sendEmailHtml newsletter) then
        ⟨.serverError, store, notifs⟩
      else
        let updated := { newsletter with
          status := "sent",
          recipients := addToSet newsletter.recipients userIds }
        if !env.saveOk then ⟨.serverError, store, notifs⟩
        else
          let store' := updateById store id updated
          let newNotifs := (userIds.filter (· ∈ env.notifSucceeded)).map
            (sendNotifFor newsletter)
          ⟨.ok ("Newsletter successfully sent to " ++ toString userIds.length ++ " user(s)."),
            store', notifs ++ newNotifs⟩

/-- PATCH /:id/status (lines 185-193):
`Newsletter.findByIdAndUpdate(id, {status}, {new:true})` followed by
`res.json(updatedNewsletter)`.  An unknown id makes `findByIdAndUpdate`
resolve to `null`, so the route still answers 200 with a `null` body and
touches nothing; a known id gets the status overwritten unconditionally.
The returned pair is (the 200 response body, the collection afterwards). -/
def patchStatus (store : List Newsletter) (id : Nat) (status : String) :
    Option Newsletter × List Newsletter :=
  match findById store id with
  | none => (none, store)
  | some nl =>
    let nl' := { nl with status := status }
    (some nl', updateById store id nl')

/-- The projection applied by `articles.map(a => ...)` at the top of
`createAdvancedNewsletterHtmlPrompt` (lines 26-33); note `source` is fed
from `a.sourceName`. -/
structure ArticleForPrompt where
  title : Option String
  summary : Option String
  source : Option String
  category : Option String
  originalUrl : Option String
  imageUrl : Option String
deriving DecidableEq, Repr

def articleForPrompt (a : Article) : ArticleForPrompt :=
  { title := a.title, summary := a.summary, source := a.sourceName,
    category := a.category, originalUrl := a.originalUrl, imageUrl := a.imageUrl }

/-- JSON escaping of one character, as performed by `JSON.stringify` on
string values. -/
def jsonEscapeChar (c : Char) : String :=
  if c = '"' then "\\\""
  else if c = '\\' then "\\\\"
  else if c = '\x08' then "\\b"
  else if c = '\x0c' then "\\f"
  else if c = '\n' then "\\n"
  else if c = '\r' then "\\r"
  else if c = '\t' then "\\t"
  else if c.toNat < 32 then
    "\\u00" ++ String.mk [Nat.digitChar (c.toNat / 16), Nat.digitChar (c.toNat % 16)]
  else String.mk [c]

def jsonEscape (s : String) : String :=
  String.join (s.data.map jsonEscapeChar)

def jsonStr (s : String) : String :=
  "\"" ++ jsonEscape s ++ "\""

/-- The key/value pairs `JSON.stringify` serializes for one projected
article: properties holding `undefined` (here `none`) are omitted. -/
def presentFields (a : ArticleForPrompt) : List (String × String) :=
  ([("title", a.title), ("summary", a.summary), ("source", a.source),
    ("category", a.category), ("originalUrl", a.originalUrl),
    ("imageUrl", a.imageUrl)]).filterMap
    (fun kv => kv.2.map (fun v => (kv.1, jsonStr v)))

/-- One JSON object rendered by `JSON.stringify(_, null, 2)` whose opening
brace sits at indentation `indent`. -/
def jsonObjectAt (indent : String) (fields : List (String × String)) : String :=
  if fields.isEmpty then "\x7b\x7d"
  else
    "\x7b\n"
      ++ String.intercalate (",\n")
          (fields.map (fun kv => indent ++ "  " ++ jsonStr kv.1 ++ ": " ++ kv.2))
      ++ "\n" ++ indent ++ "\x7d"

/-- Model of `JSON.stringify({ articles: articlesForPrompt }, null, 2)`
(line 74) for the exact value shape the route serializes. -/
def stringifyArticlesJson (articles : List ArticleForPrompt) : String :=
  if articles.isEmpty then "\x7b\n  \"articles\": []\n\x7d"
  else
    "\x7b\n  \"articles\": [\n"
      ++ String.intercalate (",\n")
          (articles.map (fun a => "    " ++ jsonObjectAt ("    ") (presentFields a)))
      ++ "\n  ]\n\x7d"

/-- The conditionally built flyer `<img>` fragment (lines 36-38); JS
truthiness makes both `null` and the empty string yield the empty
fragment. -/
def flyerImageHtml : Option String → String
  | some url =>
    if url.data.isEmpty then ""
    else
      "<img src=\"" ++ url
        ++ "\" alt=\"Flyer Image\" style=\"max-width: 100%; height: auto; display: block; margin-bottom: 20px; border-radius: 5px;\">"
  | none => ""

/-- The Prompt Composer `createAdvancedNewsletterHtmlPrompt` (lines 25-79).
`today` models the value of `format(new Date(), 'MMMM do, yyyy')` on
line 53 — a read of the current clock, so it is an input of the embedding
even though the JS function does not receive it as a parameter. -/
def createAdvancedNewsletterHtmlPrompt (articles : List Article) (title : String)
    (flyerImageUrl : Option String) (today : String) : String :=
  let articlesForPrompt := articles.map articleForPrompt
  "\n        Act as an expert HTML and CSS email designer. Your task is to generate a single, complete HTML file for a professional and visually appealing newsletter based on the provided JSON data.\n\n        **Design & Layout Guidelines:**\n\n        1.  **Overall Structure:**\n            * Use a main container with a max-width of 680px, centered with a light gray background (#f4f4f4).\n            * The email body should have a clean, white background (#ffffff) with rounded corners and a subtle shadow.\n            * Use a professional and readable font like \x27Helvetica Neue\x27, Helvetica, Arial, sans-serif.\n\n        2.  **Header:**\n            * Include a preheader text: \"Your weekly dose of insightful news.\"\n            * A main header with the newsletter title \""
    ++ title
    ++ "\" in a large, bold font (e.g., 32px) and a dark color (#333333).\n            * Include the date ("
    ++ today
    ++ ") in a smaller, lighter font.\n\n        3.  **Flyer Image:**\n            "
    ++ flyerImageHtml flyerImageUrl
    ++ "\n\n        4.  **Article Layout:**\n            * Use a single-column layout for articles.\n            * Each article should have a clear headline, a brief summary, and a \"Read More\" button linking to the original article.\n            * If an `imageUrl` is provided for an article, display it above the headline.\n\n        5.  **Styling:**\n            * Use inline CSS for all styling to ensure maximum compatibility with email clients.\n            * Buttons should have a solid background color, rounded corners, and clear, legible text.\n            * Use ample white space to improve readability.\n\n        6.  **Footer:**\n            * Include a footer with your company name, address, and a link to unsubscribe.\n            * Add social media icons (as links) for platforms like Twitter, LinkedIn, and Facebook.\n\n        **JSON Data to Use:**\n        ```json\n        "
    ++ stringifyArticlesJson articlesForPrompt
    ++ "\n        ```\n\n        **IMPORTANT: Your response MUST be only the raw HTML code, starting with <!DOCTYPE html>. Do not add any commentary or explanations.**\n    "

/-- Line 120: `result.response.text().replace(/^```html\n/, '').replace(/\n```$/, '')`.
Both regexes are anchored and `$` in JavaScript (without the `m` flag)
matches only the very end of the string, so this strips one leading
fence-opening and one trailing fence-closing when present. -/
def stripCodeFence (s : String) : String :=
  let opening := ("```html\n").data
  let closing := ("\n```").data
  let d1 := if opening.isPrefixOf s.data then s.data.drop opening.length else s.data
  let d2 :=
    if closing.reverse.isPrefixOf d1.reverse then d1.take (d1.length - closing.length)
    else d1
  String.mk d2

/-- The Content Validator (lines 120-124): after stripping the fence,
`if (!generatedHtml || generatedHtml.length < 100) throw ...`.
`some html` = accepted, `none` = rejected (the throw lands in the route's
catch, producing the 500 response). -/
def contentValidator (raw : String) : Option String :=
  let generatedHtml := stripCodeFence raw
  if generatedHtml.data.isEmpty || generatedHtml.length < 100 then none
  else some generatedHtml

/-- Whether a text begins with the document marker `<!DOCTYPE html>` that
the prompt instructs the generation service to lead with. -/
def startsWithDoctype (s : String) : Bool :=
  ("<!DOCTYPE html>").data.isPrefixOf s.data

/-- The Document Renderer step (lines 128-132) transcribed statement by
statement.  The browser is launched, then `page.setContent` (may throw),
then `page.pdf` (may throw), then `await browser.close()`.  The second
component records whether `browser.close()` was reached: an exception in
either earlier await propagates straight to the route's catch, skipping
the close. -/
def renderPdf (setContentOk : Bool) (exportPdf : Option (List Nat)) :
    Option (List Nat) × Bool :=
  if !setContentOk then (none, false)
  else
    match exportPdf with
    | none => (none, false)
    | some pdfBuffer => (some pdfBuffer, true)

/-- Environment of one POST /generate-and-save request.  `genConfigured`
models `genAI` being non-null; `findCategory` models
`Category.findOne({name})`; `today` the clock read inside the prompt
composer; `generate` the Gemini call (`none` = throws); `setContentOk` and
`exportPdf` the two fallible puppeteer awaits; `saveOk` the
`newNewsletter.save()`; `notifSaveOk` the `notification.save()` (which is
NOT inside an inner try, so its throw reaches the route's catch after the
newsletter was already persisted). -/
structure GenEnv where
  genConfigured : Bool
  findCategory : String → Option CategoryDoc
  today : String
  generate : String → Option String
  setContentOk : Bool
  exportPdf : Option (List Nat)
  saveOk : Bool
  notifSaveOk : Bool

/-- Response of POST /generate-and-save. -/
inductive GenResp
  | errNoGenAI
  | badRequest
  | serverError
  | ok (pdf : List Nat)
deriving DecidableEq, Repr

/-- Result of one generate-and-save request.  `browserLaunched` and
`browserReleased` record whether `puppeteer.launch` ran and whether
`browser.close()` ran, so resource-lifecycle properties are statable. -/
structure GenResult where
  resp : GenResp
  store : List Newsletter
  notifs : List Notif
  browserLaunched : Bool
  browserReleased : Bool
deriving Repr

/-- Lines 111-112: `Category.findOne({name: category})` followed by
`categoryData ? categoryData.flyerImageUrl : null`. -/
def flyerLookup (env : GenEnv) (category : String) : Option String :=
  match env.findCategory category with
  | some categoryData => categoryData.flyerImageUrl
  | none => none

/-- POST /generate-and-save (lines 98-167) transcribed: guard `genAI`;
validate the body; look up the category's flyer image; compose the prompt
and call the generation service; validate the returned text; render to
PDF; persist the Newsletter with status 'Not Sent', the PDF buffer and
the generated html; persist the admin notification (outside any inner
try); answer with the PDF.  Every throw lands in the single catch,
producing the 500 response with whatever had already been persisted. -/
def generateAndSave (env : GenEnv) (store : List Newsletter) (notifs : List Notif)
    (adminId : Nat) (articles : List Article) (title category : String)
    (freshId : Nat) : GenResult :=
  if !env.genConfigured then ⟨.errNoGenAI, store, notifs, false, false⟩
  else if articles.isEmpty || title.data.isEmpty || category.data.isEmpty then
    ⟨.badRequest, store, notifs, false, false⟩
  else
    let flyerImageUrl := flyerLookup env category
    let prompt := createAdvancedNewsletterHtmlPrompt articles title flyerImageUrl env.today
    match env.generate prompt with
    | none => ⟨.serverError, store, notifs, false, false⟩
    | some responseText =>
      match contentValidator responseText with
      | none => ⟨.serverError, store, notifs, false, false⟩
      | some generatedHtml =>
        match renderPdf env.setContentOk env.exportPdf with
        | (none, released) => ⟨.serverError, store, notifs, true, released⟩
        | (some pdfBuffer, released) =>
          let newNewsletter : Newsletter :=
            { mongoId := freshId, title := title, category := category,
              status := "Not Sent",
              articles := articles.map (fun a => a.mongoId),
              recipients := [],
              pdfContent := some (pdfBuffer, "application/pdf"),
              htmlContent := some generatedHtml }
          if !env.saveOk then ⟨.serverError, store, notifs, true, released⟩
          else
            let store' := store ++ [newNewsletter]
            if !env.notifSaveOk then ⟨.serverError, store', notifs, true, released⟩
            else
              let notification : Notif :=
                { user := adminId, newsletter := freshId,
                  message := "New newsletter \"" ++ title
                    ++ "\" generated. Check it out in \"Newsletter History\" to share and view.",
                  actionUrl := some ("/dashboard?tab=generated-newsletters") }
              ⟨.ok pdfBuffer, store', notifs ++ [notification], true, released⟩

/-! Concrete fixtures used by the witness and counterexample theorems. -/

def sampleNewsletter : Newsletter :=
  { mongoId := 1, title := "Weekly Digest", category := "Tech", status := "pending",
    articles := [], recipients := [5], pdfContent := none, htmlContent := none }

def sampleStore : List Newsletter := [sampleNewsletter]

def sampleArticle : Article :=
  { mongoId := 3, title := some ("X"), summary := some ("Y"),
    sourceName := some ("Z"), category := none,
    originalUrl := some ("http://example.com/x"), imageUrl := none }

def failingDeliveryEnv : SendEnv :=
  { sendgridConfigured := true, resolveEmails := fun _ => ["user@example.com"],
    deliver := fun _ _ => false, saveOk := true, notifSucceeded := [] }

def skippedDeliveryEnv : SendEnv :=
  { sendgridConfigured := false, resolveEmails := fun _ => [],
    deliver := fun _ _ => true, saveOk := true, notifSucceeded := [5, 7] }

def alwaysDeliverEnv : SendEnv :=
  { sendgridConfigured := true, resolveEmails := fun _ => ["user@example.com"],
    deliver := fun _ _ => true, saveOk := true, notifSucceeded := [5, 7] }

def notifFailureEnv : SendEnv :=
  { sendgridConfigured := false, resolveEmails := fun _ => [],
    deliver := fun _ _ => true, saveOk := true, notifSucceeded := [] }

def sampleGeneratedHtml : String :=
  "<!DOCTYPE html><html><head><title>Weekly Digest</title></head><body><p>Some of the most interesting stories of this week.</p></body></html>"

def weeklyDigestEnv : GenEnv :=
  { genConfigured := true, findCategory := fun _ => none,
    today := "October 11th, 2026",
    generate := fun _ => some sampleGeneratedHtml, setContentOk := true,
    exportPdf := some [37, 80, 68, 70], saveOk := true, notifSaveOk := true }

def failingRenderEnv : GenEnv :=
  { genConfigured := true, findCategory := fun _ => none,
    today := "October 11th, 2026",
    generate := fun _ => some sampleGeneratedHtml, setContentOk := true,
    exportPdf := none, saveOk := true, notifSaveOk := true }

def shortResponseEnv : GenEnv :=
  { genConfigured := true, findCategory := fun _ => none,
    today := "October 11th, 2026",
    generate := fun _ => some ("oops"), setContentOk := true,
    exportPdf := some [37, 80, 68, 70], saveOk := true, notifSaveOk := true }

/-! Claim theorems. -/

set_option maxRecDepth 100000

/-- C10: a PATCH /:id/status request whose id matches no stored newsletter
succeeds with a 200 response carrying a `null` body (the `none` first
component) rather than a 404, and the collection is neither extended nor
modified. -/
theorem patchStatus_unknown_id_yields_null (store : List Newsletter)
    (id : Nat) (status : String) (hmiss : findById store id = none) :
    patchStatus store id status = (none, store) := by
  unfold patchStatus
  rw [hmiss]

theorem patchStatus_unknown_id_yields_null_witness :
    patchStatus sampleStore 2 ("declined") = (none, sampleStore) :=
  patchStatus_unknown_id_yields_null sampleStore 2 ("declined") (by rfl)

/-- C1: when the recipient list is non-empty, the newsletter exists,
SendGrid is configured, at least one recipient resolves, and the delivery
call fails, the whole send aborts atomically: the caller gets the 500
failure response, the stored newsletter (status and recipient set
included) is untouched, and no notification is written. -/
theorem send_delivery_failure_aborts_atomically
    (env : SendEnv) (store : List Newsletter) (notifs : List Notif)
    (id : Nat) (userIds : List Nat) (nl : Newsletter)
    (hne : userIds ≠ [])
    (hfound : findById store id = some nl)
    (hconf : env.sendgridConfigured = true)
    (hres : (env.resolveEmails userIds).isEmpty = false)
    (hfail : env.deliver (env.resolveEmails userIds) (sendEmailHtml nl) = false) :
    sendNewsletter env store notifs id userIds = ⟨.serverError, store, notifs⟩ := by
  have hne' : userIds.isEmpty = false := by
    cases userIds with
    | nil => exact absurd rfl hne
    | cons a t => rfl
  unfold sendNewsletter
  rw [hne', hfound]
  simp [hconf, hres, hfail]

theorem send_delivery_failure_witness :
    sendNewsletter failingDeliveryEnv sampleStore [] 1 [5, 7]
      = ⟨.serverError, sampleStore, []⟩ :=
  send_delivery_failure_aborts_atomically failingDeliveryEnv sampleStore [] 1
    [5, 7] sampleNewsletter (by decide) (by rfl) rfl rfl rfl

/-- C2: on delivery success or with no provider configured (given a
non-empty recipient list, an existing newsletter and a successful save),
the stored newsletter's status becomes `sent` and its recipient set
becomes the set union of the prior recipients and the given identities;
in particular the prior recipients all survive, so a repeated send never
shrinks the recipient set. -/
theorem send_success_sets_sent_and_unions_recipients
    (env : SendEnv) (store : List Newsletter) (notifs : List Notif)
    (id : Nat) (userIds : List Nat) (nl : Newsletter)
    (hne : userIds ≠ [])
    (hfound : findById store id = some nl)
    (hdeliver : env.sendgridConfigured = false ∨
      env.deliver (env.resolveEmails userIds) (sendEmailHtml nl) = true)
    (hsave : env.saveOk = true) :
    ∃ nl', findById (sendNewsletter env store notifs id userIds).store id = some nl'
      ∧ nl'.status = "sent"
      ∧ nl'.recipients.toFinset = nl.recipients.toFinset ∪ userIds.toFinset
      ∧ ∀ x ∈ nl.recipients, x ∈ nl'.recipients := by
  have hne' : userIds.isEmpty = false := by
    cases userIds with
    | nil => exact absurd rfl hne
    | cons a t => rfl
  have hcond : (env.sendgridConfigured && !(env.resolveEmails userIds).isEmpty
      && !env.deliver (env.resolveEmails userIds) (sendEmailHtml nl)) = false := by
    rcases hdeliver with h | h
    · simp [h]
    · simp [h]
  refine ⟨{ nl with status := "sent", recipients := addToSet nl.recipients userIds },
    ?_, rfl, toFinset_addToSet nl.recipients userIds,
    addToSet_superset nl.recipients userIds⟩
  unfold sendNewsletter
  rw [hne', hfound]
  simp only [hcond, Bool.false_eq_true, if_false, hsave, Bool.not_true]
  exact findById_updateById store id nl _ hfound rfl

theorem send_success_witness :
    ∃ nl', findById (sendNewsletter skippedDeliveryEnv sampleStore [] 1 [5, 7]).store 1
        = some nl'
      ∧ nl'.status = "sent"
      ∧ nl'.recipients.toFinset
          = sampleNewsletter.recipients.toFinset ∪ ([5, 7] : List Nat).toFinset
      ∧ ∀ x ∈ sampleNewsletter.recipients, x ∈ nl'.recipients :=
  send_success_sets_sent_and_unions_recipients skippedDeliveryEnv sampleStore [] 1
    [5, 7] sampleNewsletter (by decide) (by rfl) (Or.inl rfl) rfl

/-- C5: the send operation forces status to `sent` regardless of the prior
status: setting an existing newsletter to the terminal `declined` through
the status-update route and then sending (with a non-empty recipient list,
delivery succeeding, save succeeding) still leaves the stored record with
status `sent`. -/
theorem declined_then_send_yields_sent
    (env : SendEnv) (store : List Newsletter) (notifs : List Notif)
    (id : Nat) (userIds : List Nat) (nl : Newsletter)
    (hfound : findById store id = some nl)
    (hne : userIds ≠ [])
    (hdeliver : ∀ dests html, env.deliver dests html = true)
    (hsave : env.saveOk = true) :
    ∃ nl1, findById (patchStatus store id ("declined")).2 id = some nl1
      ∧ nl1.status = "declined"
      ∧ ∃ nl2, findById (sendNewsletter env (patchStatus store id ("declined")).2
            notifs id userIds).store id = some nl2
          ∧ nl2.status = "sent" := by
  have hne' : userIds.isEmpty = false := by
    cases userIds with
    | nil => exact absurd rfl hne
    | cons a t => rfl
  have hpatch : (patchStatus store id ("declined")).2
      = updateById store id { nl with status := "declined" } := by
    unfold patchStatus
    rw [hfound]
  have hfound1 : findById (patchStatus store id ("declined")).2 id
      = some { nl with status := "declined" } := by
    rw [hpatch]
    exact findById_updateById store id nl _ hfound rfl
  refine ⟨{ nl with status := "declined" }, hfound1, rfl, ?_⟩
  have hcond : (env.sendgridConfigured && !(env.resolveEmails userIds).isEmpty
      && !env.deliver (env.resolveEmails userIds)
           (sendEmailHtml { nl with status := "declined" })) = false := by
    simp [hdeliver _ _]
  refine ⟨{ nl with status := "sent", recipients := addToSet nl.recipients userIds },
    ?_, rfl⟩
  unfold sendNewsletter
  rw [hne', hfound1]
  simp only [hcond, Bool.false_eq_true, if_false, hsave, Bool.not_true]
  exact findById_updateById _ id _ _ hfound1 rfl

theorem declined_then_send_witness :
    ∃ nl1, findById (patchStatus sampleStore 1 ("declined")).2 1 = some nl1
      ∧ nl1.status = "declined"
      ∧ ∃ nl2, findById (sendNewsletter alwaysDeliverEnv
            (patchStatus sampleStore 1 ("declined")).2 [] 1 [5, 7]).store 1 = some nl2
          ∧ nl2.status = "sent" :=
  declined_then_send_yields_sent alwaysDeliverEnv sampleStore [] 1 [5, 7]
    sampleNewsletter (by rfl) (by decide) (fun _ _ => rfl) rfl

/-- C6: when delivery and the status/recipient persistence succeed but
every per-recipient notification insert fails, the failure is non-fatal:
the caller still receives the 200 success response, no notification is
added, and a subsequent read of the newsletter returns status `sent` with
the merged recipient set. -/
theorem notification_failure_nonfatal
    (env : SendEnv) (store : List Newsletter) (notifs : List Notif)
    (id : Nat) (userIds : List Nat) (nl : Newsletter)
    (hne : userIds ≠ [])
    (hfound : findById store id = some nl)
    (hdeliver : env.sendgridConfigured = false ∨
      env.deliver (env.resolveEmails userIds) (sendEmailHtml nl) = true)
    (hsave : env.saveOk = true)
    (hnotif : env.notifSucceeded = []) :
    (sendNewsletter env store notifs id userIds).resp
        = .ok ("Newsletter successfully sent to " ++ toString userIds.length ++ " user(s).")
      ∧ (sendNewsletter env store notifs id userIds).notifs = notifs
      ∧ ∃ nl', findById (sendNewsletter env store notifs id userIds).store id = some nl'
          ∧ nl'.status = "sent"
          ∧ nl'.recipients.toFinset = nl.recipients.toFinset ∪ userIds.toFinset := by
  have hne' : userIds.isEmpty = false := by
    cases userIds with
    | nil => exact absurd rfl hne
    | cons a t => rfl
  have hcond : (env.sendgridConfigured && !(env.resolveEmails userIds).isEmpty
      && !env.deliver (env.resolveEmails userIds) (sendEmailHtml nl)) = false := by
    rcases hdeliver with h | h
    · simp [h]
    · simp [h]
  have hfilter : userIds.filter (fun u => decide (u ∈ env.notifSucceeded)) = [] := by
    rw [hnotif]
    simp
  refine ⟨?_, ?_, ?_⟩
  · unfold sendNewsletter
    rw [hne', hfound]
    simp only [hcond, Bool.false_eq_true, if_false, hsave, Bool.not_true]
  · unfold sendNewsletter
    rw [hne', hfound]
    simp only [hcond, Bool.false_eq_true, if_false, hsave, Bool.not_true]
    rw [hfilter]
    simp
  · refine ⟨{ nl with status := "sent", recipients := addToSet nl.recipients userIds },
      ?_, rfl, toFinset_addToSet nl.recipients userIds⟩
    unfold sendNewsletter
    rw [hne', hfound]
    simp only [hcond, Bool.false_eq_true, if_false, hsave, Bool.not_true]
    exact findById_updateById store id nl _ hfound rfl

theorem notification_failure_nonfatal_witness :
    (sendNewsletter notifFailureEnv sampleStore [] 1 [5, 7]).resp
        = .ok ("Newsletter successfully sent to " ++ toString ([5, 7] : List Nat).length ++ " user(s).")
      ∧ (sendNewsletter notifFailureEnv sampleStore [] 1 [5, 7]).notifs = []
      ∧ ∃ nl', findById (sendNewsletter notifFailureEnv sampleStore [] 1 [5, 7]).store 1
            = some nl'
          ∧ nl'.status = "sent"
          ∧ nl'.recipients.toFinset
              = sampleNewsletter.recipients.toFinset ∪ ([5, 7] : List Nat).toFinset :=
  notification_failure_nonfatal notifFailureEnv sampleStore [] 1 [5, 7]
    sampleNewsletter (by decide) (by rfl) (Or.inl rfl) rfl rfl

/-- C3 counterexample: a 120-character generation response that does not
begin with `<!DOCTYPE html>` is nevertheless accepted by the Content
Validator, so the claimed rejection of texts missing the document marker
does not happen. -/
theorem contentValidator_accepts_missing_marker :
    (contentValidator (String.mk (List.replicate 120 'a'))).isSome = true
      ∧ startsWithDoctype (String.mk (List.replicate 120 'a')) = false := by
  decide

/-- C3 amended: the Content Validator strips the incidental code fence and
rejects exactly the responses whose stripped text is shorter than the
100-character threshold (emptiness is a special case of that); on
rejection the pipeline answers 500, persists nothing, and never launches
the rendering browser.  No document-marker check is performed. -/
theorem contentValidator_rejects_only_short
    (env : GenEnv) (store : List Newsletter) (notifs : List Notif)
    (adminId : Nat) (articles : List Article) (title category : String)
    (freshId : Nat) (raw : String)
    (hconf : env.genConfigured = true)
    (harts : articles ≠ [])
    (htitle : title.data ≠ [])
    (hcat : category.data ≠ [])
    (hresp : env.generate (createAdvancedNewsletterHtmlPrompt articles title
        (flyerLookup env category) env.today) = some raw)
    (hreject : contentValidator raw = none) :
    ((contentValidator raw = none) ↔ (stripCodeFence raw).length < 100)
      ∧ generateAndSave env store notifs adminId articles title category freshId
          = ⟨.serverError, store, notifs, false, false⟩ := by
  constructor
  · unfold contentValidator
    by_cases hlen : (stripCodeFence raw).length < 100
    · simp [hlen]
    · have hdata : (stripCodeFence raw).data.isEmpty = false := by
        cases hd : (stripCodeFence raw).data with
        | nil =>
          exact absurd (by show (stripCodeFence raw).data.length < 100; rw [hd]; decide) hlen
        | cons c cs => rfl
      simp [hlen, hdata]
  · have harts' : articles.isEmpty = false := by
      cases articles with
      | nil => exact absurd rfl harts
      | cons a t => rfl
    have htitle' : title.data.isEmpty = false := by
      cases ht : title.data with
      | nil => exact absurd ht htitle
      | cons c cs => rfl
    have hcat' : category.data.isEmpty = false := by
      cases hc : category.data with
      | nil => exact absurd hc hcat
      | cons c cs => rfl
    unfold generateAndSave
    rw [hconf, harts', htitle', hcat']
    simp only [Bool.not_true, Bool.false_eq_true, if_false, Bool.false_or, Bool.or_self]
    simp only [hresp, hreject]

theorem contentValidator_rejects_only_short_witness :
    ((contentValidator ("oops") = none) ↔ (stripCodeFence ("oops")).length < 100)
      ∧ generateAndSave shortResponseEnv [] [] 0 [sampleArticle] ("Weekly Digest") ("Tech") 1
          = ⟨.serverError, [], [], false, false⟩ :=
  contentValidator_rejects_only_short shortResponseEnv [] [] 0 [sampleArticle]
    ("Weekly Digest") ("Tech") 1 ("oops") rfl (by decide) (by decide) (by decide)
    rfl (by decide)

/-- C4 counterexample: an execution of the Document Renderer step in which
loading succeeds but the PDF export throws: `browser.close()` is never
reached, and through the whole route the browser is launched yet not
released — the rendering context is NOT released on this exit path. -/
theorem renderer_leaks_browser_on_export_failure :
    (renderPdf true none).2 = false
      ∧ (generateAndSave failingRenderEnv [] [] 0 [sampleArticle]
          ("Weekly Digest") ("Tech") 1).browserLaunched = true
      ∧ (generateAndSave failingRenderEnv [] [] 0 [sampleArticle]
          ("Weekly Digest") ("Tech") 1).browserReleased = false := by
  refine ⟨rfl, ?_, ?_⟩ <;> decide

/-- C4 amended: the rendering context is released exactly on the success
path — `browser.close()` runs iff both loading the markup and exporting
the PDF succeed; on either failure the exception skips the close and the
browser process leaks. -/
theorem renderPdf_release_iff_success (setContentOk : Bool)
    (exportPdf : Option (List Nat)) :
    (renderPdf setContentOk exportPdf).2 = true
      ↔ (setContentOk = true ∧ exportPdf.isSome = true) := by
  cases setContentOk <;> cases exportPdf <;> simp [renderPdf]

/-- C7: generation is all-or-nothing: whenever the render step fails, the
Newsletter collection is left exactly as it was (no record persisted),
and any record the pipeline does add carries both the rendered artifact
and the raw generated markup (so artifact and markup are both present or
the record was not created by this run). -/
theorem generation_all_or_nothing
    (env : GenEnv) (store : List Newsletter) (notifs : List Notif)
    (adminId : Nat) (articles : List Article) (title category : String)
    (freshId : Nat) :
    ((renderPdf env.setContentOk env.exportPdf).1 = none →
        (generateAndSave env store notifs adminId articles title category freshId).store
          = store)
      ∧ ∀ nl ∈ (generateAndSave env store notifs adminId articles title category freshId).store,
          nl ∈ store ∨ (nl.pdfContent.isSome = true ∧ nl.htmlContent.isSome = true) := by
  constructor
  · intro hfail
    simp only [generateAndSave]
    repeat' split
    all_goals first
      | rfl
      | (exfalso; simp_all)
  · intro nl hnl
    simp only [generateAndSave] at hnl
    repeat' split at hnl
    all_goals first
      | exact Or.inl hnl
      | ((obtain h | h := List.mem_append.mp hnl) <;>
          first
            | exact Or.inl h
            | (simp only [List.mem_singleton] at h
               subst h
               exact Or.inr ⟨rfl, rfl⟩))

theorem generation_all_or_nothing_witness :
    (generateAndSave failingRenderEnv [] [] 0 [sampleArticle]
        ("Weekly Digest") ("Tech") 1).store = [] :=
  (generation_all_or_nothing failingRenderEnv [] [] 0 [sampleArticle]
    ("Weekly Digest") ("Tech") 1).1 rfl

/-- C8 counterexample: two invocations of the Prompt Composer with the
identical article list, newsletter title and flyer reference, but made on
two different days, produce different generation requests — the composer
also interpolates the current date, so it is not determined by the three
claimed inputs alone. -/
theorem prompt_depends_on_current_date :
    createAdvancedNewsletterHtmlPrompt [] ("T") none ("January 1st, 2025")
      ≠ createAdvancedNewsletterHtmlPrompt [] ("T") none ("January 2nd, 2025") := by
  decide

/-- C8 amended: the Prompt Composer is a pure data transformation of the
ordered article list, the title, the optional flyer reference AND the
observed current date: two invocations agreeing on all four inputs yield
character-for-character identical generation requests. -/
theorem prompt_composer_deterministic
    (a1 a2 : List Article) (t1 t2 : String) (f1 f2 : Option String)
    (d1 d2 : String)
    (ha : a1 = a2) (ht : t1 = t2) (hf : f1 = f2) (hd : d1 = d2) :
    createAdvancedNewsletterHtmlPrompt a1 t1 f1 d1
      = createAdvancedNewsletterHtmlPrompt a2 t2 f2 d2 := by
  subst ha
  subst ht
  subst hf
  subst hd
  rfl

theorem prompt_composer_deterministic_witness :
    createAdvancedNewsletterHtmlPrompt [sampleArticle] ("Weekly Digest") none
        ("October 11th, 2026")
      = createAdvancedNewsletterHtmlPrompt [sampleArticle] ("Weekly Digest") none
        ("October 11th, 2026") :=
  prompt_composer_deterministic [sampleArticle] [sampleArticle]
    ("Weekly Digest") ("Weekly Digest") none none
    ("October 11th, 2026") ("October 11th, 2026") rfl rfl rfl rfl

/-- C9: a successful run of the generation pipeline appends exactly one
Newsletter whose status is the schema's initial value (`'Not Sent'`, the
state the specification calls `not_sent`, a member of the status
enumeration), whose rendered artifact is present and non-empty (given the
rendering engine returned a non-empty buffer), and whose stored markup is
present and non-empty. -/
theorem generated_record_has_initial_status
    (env : GenEnv) (store : List Newsletter) (notifs : List Notif)
    (adminId : Nat) (articles : List Article) (title category : String)
    (freshId : Nat) (raw : String) (buf : List Nat)
    (hconf : env.genConfigured = true)
    (harts : articles ≠ [])
    (htitle : title.data ≠ [])
    (hcat : category.data ≠ [])
    (hresp : env.generate (createAdvancedNewsletterHtmlPrompt articles title
        (flyerLookup env category) env.today) = some raw)
    (hlong : 100 ≤ (stripCodeFence raw).length)
    (hload : env.setContentOk = true)
    (hexport : env.exportPdf = some buf)
    (hbuf : buf ≠ [])
    (hsave : env.saveOk = true) :
    ∃ nl, (generateAndSave env store notifs adminId articles title category freshId).store
        = store ++ [nl]
      ∧ nl.status = statusDefault
      ∧ statusDefault ∈ statusEnum
      ∧ (∃ d ct, nl.pdfContent = some (d, ct) ∧ d ≠ [])
      ∧ (∃ h, nl.htmlContent = some h ∧ h.data ≠ []) := by
  have harts' : articles.isEmpty = false := by
    cases articles with
    | nil => exact absurd rfl harts
    | cons a t => rfl
  have htitle' : title.data.isEmpty = false := by
    cases ht : title.data with
    | nil => exact absurd ht htitle
    | cons c cs => rfl
  have hcat' : category.data.isEmpty = false := by
    cases hc : category.data with
    | nil => exact absurd hc hcat
    | cons c cs => rfl
  have hmarkup : (stripCodeFence raw).data ≠ [] := by
    intro hd
    have hz : (stripCodeFence raw).length = 0 := by
      show (stripCodeFence raw).data.length = 0
      rw [hd]
      rfl
    omega
  have hvalid : contentValidator raw = some (stripCodeFence raw) := by
    unfold contentValidator
    have h1 : (stripCodeFence raw).data.isEmpty = false := by
      cases hd : (stripCodeFence raw).data with
      | nil => exact absurd hd hmarkup
      | cons c cs => rfl
    have h2 : ¬((stripCodeFence raw).length < 100) := not_lt.mpr hlong
    simp [h1, h2]
  have hrender : renderPdf env.setContentOk env.exportPdf = (some buf, true) := by
    rw [hload, hexport]
    rfl
  refine ⟨{ mongoId := freshId, title := title, category := category,
            status := "Not Sent", articles := articles.map (fun a => a.mongoId),
            recipients := [], pdfContent := some (buf, "application/pdf"),
            htmlContent := some (stripCodeFence raw) }, ?_, rfl, by decide,
    ⟨buf, "application/pdf", rfl, hbuf⟩, ⟨stripCodeFence raw, rfl, hmarkup⟩⟩
  unfold generateAndSave
  rw [hconf, harts', htitle', hcat']
  simp only [Bool.not_true, Bool.false_eq_true, if_false, Bool.or_self, Bool.false_or]
  simp only [hresp, hvalid, hrender, hsave, Bool.not_true, Bool.false_eq_true, if_false]
  split
  · rfl
  · rfl

theorem generated_record_has_initial_status_witness :
    ∃ nl, (generateAndSave weeklyDigestEnv [] [] 0 [sampleArticle]
        ("Weekly Digest") ("Tech") 1).store = [] ++ [nl]
      ∧ nl.status = statusDefault
      ∧ statusDefault ∈ statusEnum
      ∧ (∃ d ct, nl.pdfContent = some (d, ct) ∧ d ≠ [])
      ∧ (∃ h, nl.htmlContent = some h ∧ h.data ≠ []) :=
  generated_record_has_initial_status weeklyDigestEnv [] [] 0 [sampleArticle]
    ("Weekly Digest") ("Tech") 1 sampleGeneratedHtml [37, 80, 68, 70]
    rfl (by decide) (by decide) (by decide) rfl (by decide) rfl rfl (by decide) rfl

end NewsLetterAI
